import Mathlib

/-!
Shallow embedding of the mywallet email-ingestion core (TypeScript repository
rocketbyte/mywallet) and proofs about it.

Each definition mirrors one function of the source; the source file and line
numbers are given in the doc comment.  JavaScript strings are modelled as Lean
`String`, JavaScript numbers that carry money/confidence values as `Rat`,
MongoDB collections as Lean lists of documents in insertion order, and the
Temporal activity calls issued by a workflow as an explicit `WfAction`/event
trace.  `toLowerCase` is modelled by per-character `Char.toLower` (ASCII
lowering), and `String.prototype.includes` by list-infix search on the
character lists.
-/

/-- `s.toLowerCase()` on the character list of `s` (ASCII lowering). -/
def lowerStr (s : String) : List Char :=
  s.data.map Char.toLower

/-- Does `l` start with `pre`?  Helper for substring search. -/
def startsWithChars : List Char → List Char → Bool
  | _, [] => true
  | [], _ :: _ => false
  | c :: cs, d :: ds => c == d && startsWithChars cs ds

/-- Does `hay` contain `needle` as a contiguous run?  (`hay.includes(needle)`
on character lists; the empty needle is always contained, as in JavaScript.) -/
def containsSub : List Char → List Char → Bool
  | [], needle => needle.isEmpty
  | c :: cs, needle => startsWithChars (c :: cs) needle || containsSub cs needle

/-- `hay.toLowerCase().includes(needle.toLowerCase())` — the case-insensitive
substring test used throughout the pattern matcher. -/
def containsCI (hay needle : String) : Bool :=
  containsSub (lowerStr hay) (lowerStr needle)

/-- `a.toLowerCase() === b.toLowerCase()` — case-insensitive equality. -/
def eqCI (a b : String) : Bool :=
  lowerStr a == lowerStr b

/-- The `EmailPattern` match rule.  Fields of the domain entity
(`part_000`, `EmailPattern`, lines 6-20) together with the persisted fields of
the corresponding Mongoose model; `priority` defaults to 0 in the source. -/
structure EmailPattern where
  id : String
  name : String
  bankName : String
  fromAddresses : List String
  subjectPatterns : List String
  bodyKeywords : List String
  extractionPrompt : String
  isActive : Bool
  priority : Int
deriving DecidableEq

/-- `EmailPattern.matches` (`part_000` lines 43-70): inactive rules never
match; the sender must contain one of the from-addresses case-insensitively;
a declared (non-empty) subject-pattern list requires at least one
case-insensitive substring hit on the subject, and likewise a declared
body-keyword list on the body. -/
def EmailPattern.matchesEmail (p : EmailPattern) (emailFrom emailSubject emailBody : String) : Bool :=
  if !p.isActive then false
  else
    let fromMatches := p.fromAddresses.any (fun pat => containsCI emailFrom pat)
    if !fromMatches then false
    else
      let subjectMatches := p.subjectPatterns.isEmpty ||
        p.subjectPatterns.any (fun pat => containsCI emailSubject pat)
      let bodyMatches := p.bodyKeywords.isEmpty ||
        p.bodyKeywords.any (fun kw => containsCI emailBody kw)
      subjectMatches && bodyMatches

/-- `EmailPattern.calculateMatchScore` (`part_000` lines 75-98):
`priority` + 10 for an exact (case-insensitive) sender match, else 5 for a
partial (substring) one, + 2 per matching subject pattern + 1 per matching
body keyword. -/
def EmailPattern.calculateMatchScore (p : EmailPattern) (emailFrom emailSubject emailBody : String) : Int :=
  let base : Int := p.priority
  let fromScore : Int :=
    if p.fromAddresses.any (fun pat => eqCI emailFrom pat) then 10
    else if p.fromAddresses.any (fun pat => containsCI emailFrom pat) then 5
    else 0
  let subjectHits : Int := (p.subjectPatterns.filter (fun pat => containsCI emailSubject pat)).length
  let bodyHits : Int := (p.bodyKeywords.filter (fun kw => containsCI emailBody kw)).length
  base + fromScore + subjectHits * 2 + bodyHits

/-- The two `filter` steps of `MongoDBPatternRepository.findMatchingPattern`
(`pattern.repository.ts` lines 32-38): keep rules scoring strictly above 0,
then keep rules for which `matches` holds. -/
def survivingMatches (emailFrom emailSubject emailBody : String) (ps : List EmailPattern) : List EmailPattern :=
  (ps.filter (fun p => decide (0 < p.calculateMatchScore emailFrom emailSubject emailBody))).filter
    (fun p => p.matchesEmail emailFrom emailSubject emailBody)

/-- `matches.sort((a, b) => b.score - a.score); return matches[0].pattern`
(`pattern.repository.ts` lines 45-46).  JavaScript `Array.prototype.sort` is
stable, so the head of the sorted array is the first element of the original
order attaining the maximal score; `pickFirstMax` computes exactly that
element. -/
def pickFirstMax (emailFrom emailSubject emailBody : String) : List EmailPattern → Option EmailPattern
  | [] => none
  | p :: ps =>
    match pickFirstMax emailFrom emailSubject emailBody ps with
    | none => some p
    | some q =>
      if p.calculateMatchScore emailFrom emailSubject emailBody <
          q.calculateMatchScore emailFrom emailSubject emailBody then some q
      else some p

/-- `MongoDBPatternRepository.findMatchingPattern` (`pattern.repository.ts`
lines 23-47) on a given list of active patterns (the repository loads them
sorted by descending `priority`). -/
def findMatchingPattern (ps : List EmailPattern) (emailFrom emailSubject emailBody : String) : Option EmailPattern :=
  pickFirstMax emailFrom emailSubject emailBody (survivingMatches emailFrom emailSubject emailBody ps)

lemma pickFirstMax_eq_none_iff (f s b : String) (l : List EmailPattern) :
    pickFirstMax f s b l = none ↔ l = [] := by
  induction l with
  | nil => simp [pickFirstMax]
  | cons p ps ih =>
    simp only [pickFirstMax]
    cases h : pickFirstMax f s b ps with
    | none => simp
    | some q => simp [h]; split <;> simp

lemma pickFirstMax_mem (f s b : String) (l : List EmailPattern) (r : EmailPattern)
    (h : pickFirstMax f s b l = some r) : r ∈ l := by
  induction l generalizing r with
  | nil => simp [pickFirstMax] at h
  | cons p ps ih =>
    cases hps : pickFirstMax f s b ps with
    | none =>
      simp only [pickFirstMax, hps, Option.some.injEq] at h
      subst h
      exact List.mem_cons_self p ps
    | some q =>
      simp only [pickFirstMax, hps] at h
      by_cases hlt : p.calculateMatchScore f s b < q.calculateMatchScore f s b
      · rw [if_pos hlt, Option.some.injEq] at h
        subst h
        exact List.mem_cons_of_mem _ (ih q hps)
      · rw [if_neg hlt, Option.some.injEq] at h
        subst h
        exact List.mem_cons_self p ps

lemma pickFirstMax_maximal (f s b : String) (l : List EmailPattern) (r : EmailPattern)
    (h : pickFirstMax f s b l = some r) :
    ∀ q ∈ l, q.calculateMatchScore f s b ≤ r.calculateMatchScore f s b := by
  induction l generalizing r with
  | nil => simp [pickFirstMax] at h
  | cons p ps ih =>
    cases hps : pickFirstMax f s b ps with
    | none =>
      simp only [pickFirstMax, hps, Option.some.injEq] at h
      subst h
      have hnil : ps = [] := (pickFirstMax_eq_none_iff f s b ps).1 hps
      subst hnil
      intro q hq
      simp at hq
      subst hq
      exact le_refl _
    | some q0 =>
      simp only [pickFirstMax, hps] at h
      by_cases hlt : p.calculateMatchScore f s b < q0.calculateMatchScore f s b
      · rw [if_pos hlt, Option.some.injEq] at h
        subst h
        intro q hq
        rcases List.mem_cons.1 hq with hq | hq
        · subst hq; exact le_of_lt hlt
        · exact ih q0 hps q hq
      · rw [if_neg hlt, Option.some.injEq] at h
        subst h
        intro q hq
        rcases List.mem_cons.1 hq with hq | hq
        · subst hq; exact le_refl _
        · exact le_trans (ih q0 hps q hq) (not_lt.1 hlt)

/-- On a list sorted by descending priority, `pickFirstMax` breaks score ties
in favour of the higher-priority (earlier) rule. -/
lemma pickFirstMax_tiebreak (f s b : String) (l : List EmailPattern) (r : EmailPattern)
    (hsort : l.Sorted (fun p q => q.priority ≤ p.priority))
    (h : pickFirstMax f s b l = some r) :
    ∀ q ∈ l, q.calculateMatchScore f s b = r.calculateMatchScore f s b →
      q.priority ≤ r.priority := by
  induction l generalizing r with
  | nil => simp [pickFirstMax] at h
  | cons p ps ih =>
    have hsps : ps.Sorted (fun p q => q.priority ≤ p.priority) :=
      (List.sorted_cons.1 hsort).2
    have hhead : ∀ q ∈ ps, q.priority ≤ p.priority :=
      (List.sorted_cons.1 hsort).1
    cases hps : pickFirstMax f s b ps with
    | none =>
      simp only [pickFirstMax, hps, Option.some.injEq] at h
      subst h
      have hnil : ps = [] := (pickFirstMax_eq_none_iff f s b ps).1 hps
      subst hnil
      intro q hq _
      simp at hq
      subst hq
      exact le_refl _
    | some q0 =>
      simp only [pickFirstMax, hps] at h
      intro q hq heq
      by_cases hlt : p.calculateMatchScore f s b < q0.calculateMatchScore f s b
      · rw [if_pos hlt, Option.some.injEq] at h
        subst h
        rcases List.mem_cons.1 hq with hq | hq
        · subst hq; exact absurd heq (ne_of_lt hlt)
        · exact ih q0 hsps hps q hq heq
      · rw [if_neg hlt, Option.some.injEq] at h
        subst h
        rcases List.mem_cons.1 hq with hq | hq
        · subst hq; exact le_refl _
        · exact hhead q hq

lemma mem_survivingMatches (f s b : String) (ps : List EmailPattern) (q : EmailPattern) :
    q ∈ survivingMatches f s b ps ↔
      q ∈ ps ∧ 0 < q.calculateMatchScore f s b ∧ q.matchesEmail f s b = true := by
  simp only [survivingMatches, List.mem_filter, decide_eq_true_eq]
  tauto

lemma matchesEmail_from (p : EmailPattern) (f s b : String)
    (h : p.matchesEmail f s b = true) :
    p.fromAddresses.any (fun pat => containsCI f pat) = true := by
  simp only [EmailPattern.matchesEmail] at h
  split at h
  · exact absurd h (by simp)
  · split at h
    · exact absurd h (by simp)
    · next hfrom =>
      simpa using hfrom

/-- Claim C4: `findMatchingPattern` keeps only rules whose from-address list
has a case-insensitive substring match against the sender, scores each rule
`priority + 10/5 (exact / partial sender match) + 2 × subject hits + 1 × body
hits`, discards rules with score ≤ 0 or failing a declared subject/body
requirement, and returns the highest-scoring surviving rule — ties broken in
favour of the higher declared priority (the repository hands the rules over
sorted by descending priority and the JavaScript sort is stable); when no
rule survives it returns `none` rather than raising. -/
theorem mywallet_C4 (ps : List EmailPattern) (f s b : String)
    (hsort : ps.Sorted (fun p q => q.priority ≤ p.priority)) :
    (findMatchingPattern ps f s b = none ↔ survivingMatches f s b ps = []) ∧
    (∀ q, q ∈ survivingMatches f s b ps ↔
        q ∈ ps ∧ 0 < q.calculateMatchScore f s b ∧ q.matchesEmail f s b = true) ∧
    (∀ r, findMatchingPattern ps f s b = some r →
        (r ∈ ps ∧ 0 < r.calculateMatchScore f s b ∧ r.matchesEmail f s b = true) ∧
        r.fromAddresses.any (fun pat => containsCI f pat) = true ∧
        (∀ q ∈ ps, 0 < q.calculateMatchScore f s b → q.matchesEmail f s b = true →
          q.calculateMatchScore f s b ≤ r.calculateMatchScore f s b ∧
          (q.calculateMatchScore f s b = r.calculateMatchScore f s b →
            q.priority ≤ r.priority))) := by
  have hsurv_sorted : (survivingMatches f s b ps).Sorted (fun p q => q.priority ≤ p.priority) := by
    exact (hsort.filter _).filter _
  refine ⟨?_, mem_survivingMatches f s b ps, ?_⟩
  · constructor
    · intro h
      exact (pickFirstMax_eq_none_iff f s b _).1 h
    · intro h
      simp [findMatchingPattern, h, pickFirstMax]
  · intro r hr
    have hrmem : r ∈ survivingMatches f s b ps := pickFirstMax_mem f s b _ r hr
    have hrchar := (mem_survivingMatches f s b ps r).1 hrmem
    refine ⟨hrchar, matchesEmail_from r f s b hrchar.2.2, ?_⟩
    intro q hq hqs hqm
    have hqmem : q ∈ survivingMatches f s b ps :=
      (mem_survivingMatches f s b ps q).2 ⟨hq, hqs, hqm⟩
    exact ⟨pickFirstMax_maximal f s b _ r hr q hqmem,
      fun heq => pickFirstMax_tiebreak f s b _ r hsurv_sorted hr q hqmem heq⟩

/-- A concrete rule used in the C4 tie-break witness: priority 10, partial
sender match, one body-keyword hit — score 10 + 5 + 1 = 16. -/
def c4PatA : EmailPattern :=
  { id := "a", name := "A", bankName := "BankA", fromAddresses := ["bank.c"],
    subjectPatterns := [], bodyKeywords := ["pago"], extractionPrompt := "pa",
    isActive := true, priority := 10 }

/-- A concrete rule used in the C4 tie-break witness: priority 5, exact sender
match, one body-keyword hit — score 5 + 10 + 1 = 16. -/
def c4PatB : EmailPattern :=
  { id := "b", name := "B", bankName := "BankB", fromAddresses := ["alerts@bank.c"],
    subjectPatterns := [], bodyKeywords := ["pago"], extractionPrompt := "pb",
    isActive := true, priority := 5 }

/-- Witness for C4: both concrete rules survive with the tied score 16, and
the priority-10 rule is the one returned. -/
theorem mywallet_C4_witness :
    c4PatA.calculateMatchScore "alerts@bank.c" "s" "pago" = 16 ∧
    c4PatB.calculateMatchScore "alerts@bank.c" "s" "pago" = 16 ∧
    c4PatB ∈ survivingMatches "alerts@bank.c" "s" "pago" [c4PatA, c4PatB] ∧
    findMatchingPattern [c4PatA, c4PatB] "alerts@bank.c" "s" "pago" = some c4PatA ∧
    c4PatB.priority ≤ c4PatA.priority := by
  have hsort : ([c4PatA, c4PatB] : List EmailPattern).Sorted
      (fun p q => q.priority ≤ p.priority) := by
    refine List.Pairwise.cons ?_ (List.Pairwise.cons ?_ List.Pairwise.nil)
    · intro q hq
      simp at hq
      subst hq
      decide
    · intro q hq
      simp at hq
  have h := mywallet_C4 [c4PatA, c4PatB] "alerts@bank.c" "s" "pago" hsort
  have hfind : findMatchingPattern [c4PatA, c4PatB] "alerts@bank.c" "s" "pago" = some c4PatA := by
    decide
  have hmain := h.2.2 c4PatA hfind
  have hb : c4PatB ∈ survivingMatches "alerts@bank.c" "s" "pago" [c4PatA, c4PatB] := by
    refine (h.2.1 c4PatB).2 ⟨by simp, by decide, by decide⟩
  have htie := (hmain.2.2 c4PatB (by simp) (by decide) (by decide)).2 (by decide)
  exact ⟨by decide, by decide, hb, hfind, htie⟩

/-- The structured transaction data produced by the extraction activity
(`shared/types` `ExtractedTransaction`).  Dates are kept as opaque strings and
numeric amounts/confidences as rationals; `rawBankName` models the
`rawResponse.bankName` field consulted by `saveTransaction`. -/
structure ExtractedTransaction where
  transactionDate : String
  merchant : String
  amount : Rat
  currency : String
  category : String
  transactionType : String
  accountNumber : String
  confidence : Rat
  rawBankName : Option String
deriving DecidableEq

/-- A stored `Email` document (the `SourceMessage`), keyed per tenant by
`(userId, emailId)` (`part_002` lines 992-1007). -/
structure EmailDoc where
  userId : String
  emailId : String
  threadId : String
  fromAddr : String
  toAddr : String
  subject : String
  date : String
  body : String
  snippet : String
  rawHtml : Option String
  isProcessed : Bool
  fetchedBy : String
deriving DecidableEq

/-- `SaveEmailInput` (`shared/types`), as consumed by the per-tenant
`saveEmail` activity. -/
structure SaveEmailInput where
  userId : String
  emailId : String
  threadId : String
  fromAddr : String
  toAddr : String
  subject : String
  date : String
  body : String
  snippet : String
  rawHtml : Option String
  fetchedBy : String
deriving DecidableEq

/-- The `SavedEmail` projection returned by `saveEmail` (MongoDB object ids
are not modelled). -/
structure SavedEmail where
  emailId : String
  subject : String
  fromAddr : String
  date : String
  isProcessed : Bool
deriving DecidableEq

/-- The `Email.findOne (userId and emailId)` key test. -/
def emailKeyMatch (userId emailId : String) (e : EmailDoc) : Bool :=
  e.userId == userId && e.emailId == emailId

/-- Projection of a stored document to the activity's return value. -/
def savedEmailOf (e : EmailDoc) : SavedEmail :=
  { emailId := e.emailId, subject := e.subject, fromAddr := e.fromAddr,
    date := e.date, isProcessed := e.isProcessed }

/-- The new `Email` document built by `saveEmail` (`part_002` lines 992-1007):
all input fields plus `isProcessed := false`. -/
def mkEmailDoc (input : SaveEmailInput) : EmailDoc :=
  { userId := input.userId, emailId := input.emailId, threadId := input.threadId,
    fromAddr := input.fromAddr, toAddr := input.toAddr, subject := input.subject,
    date := input.date, body := input.body, snippet := input.snippet,
    rawHtml := input.rawHtml, isProcessed := false, fetchedBy := input.fetchedBy }

/-- `saveEmail` (`part_002` lines 972-1021): look the `(userId, emailId)` key
up; if a document exists return its projection and leave the store untouched,
otherwise insert a new document with `isProcessed := false` and return its
projection.  The function is total — the duplicate path never errors. -/
def saveEmail (db : List EmailDoc) (input : SaveEmailInput) : SavedEmail × List EmailDoc :=
  match db.find? (emailKeyMatch input.userId input.emailId) with
  | some existing => (savedEmailOf existing, db)
  | none => (savedEmailOf (mkEmailDoc input), db ++ [mkEmailDoc input])

/-- A stored `Transaction` document (the `ExtractedResult`), keyed per tenant
by `(userId, emailId)` (`mongodb.activities` `saveTransaction`, concatenated
`email.controller.ts` lines 305-363). -/
structure TransactionDoc where
  userId : String
  emailId : String
  emailSubject : String
  emailDate : String
  emailFrom : String
  rawEmailText : String
  transactionDate : String
  merchant : String
  amount : Rat
  currency : String
  category : String
  transactionType : String
  accountNumber : String
  confidence : Rat
  bankName : String
  workflowId : String
  workflowRunId : String
deriving DecidableEq

/-- `SaveTransactionInput` (`shared/types`). -/
structure SaveTransactionInput where
  userId : String
  emailId : String
  emailSubject : String
  emailDate : String
  emailFrom : String
  rawEmailText : String
  extractedData : ExtractedTransaction
  workflowId : String
  workflowRunId : String
deriving DecidableEq

/-- The `SavedTransaction` projection returned by `saveTransaction` (MongoDB
object ids are not modelled). -/
structure SavedTransaction where
  emailId : String
  transactionDate : String
  merchant : String
  amount : Rat
  category : String
deriving DecidableEq

/-- The `Transaction.findOne (userId and emailId)` key test. -/
def txKeyMatch (userId emailId : String) (t : TransactionDoc) : Bool :=
  t.userId == userId && t.emailId == emailId

/-- Projection of a stored transaction to the activity's return value. -/
def savedTransactionOf (t : TransactionDoc) : SavedTransaction :=
  { emailId := t.emailId, transactionDate := t.transactionDate,
    merchant := t.merchant, amount := t.amount, category := t.category }

/-- The new `Transaction` document built by `saveTransaction` (concatenated
`email.controller.ts` lines 325-349); `bankName` falls back to `Unknown`. -/
def mkTransactionDoc (input : SaveTransactionInput) : TransactionDoc :=
  { userId := input.userId, emailId := input.emailId,
    emailSubject := input.emailSubject, emailDate := input.emailDate,
    emailFrom := input.emailFrom, rawEmailText := input.rawEmailText,
    transactionDate := input.extractedData.transactionDate,
    merchant := input.extractedData.merchant,
    amount := input.extractedData.amount,
    currency := input.extractedData.currency,
    category := input.extractedData.category,
    transactionType := input.extractedData.transactionType,
    accountNumber := input.extractedData.accountNumber,
    confidence := input.extractedData.confidence,
    bankName := input.extractedData.rawBankName.getD "Unknown",
    workflowId := input.workflowId, workflowRunId := input.workflowRunId }

/-- `saveTransaction` (concatenated `email.controller.ts` lines 305-363):
per-tenant dedup on `(userId, emailId)`; an existing transaction is returned
as a success no-op, otherwise a new document is built from the input and
appended.  The function is total — the duplicate path never errors. -/
def saveTransaction (db : List TransactionDoc) (input : SaveTransactionInput) :
    SavedTransaction × List TransactionDoc :=
  match db.find? (txKeyMatch input.userId input.emailId) with
  | some existing => (savedTransactionOf existing, db)
  | none => (savedTransactionOf (mkTransactionDoc input), db ++ [mkTransactionDoc input])

/-- Number of stored source messages with the given tenant/provider key. -/
def countEmails (db : List EmailDoc) (userId emailId : String) : Nat :=
  (db.filter (emailKeyMatch userId emailId)).length

/-- Number of stored transactions with the given tenant/provider key. -/
def countTxs (db : List TransactionDoc) (userId emailId : String) : Nat :=
  (db.filter (txKeyMatch userId emailId)).length

lemma find?_append_of_none {α : Type} (p : α → Bool) (l1 l2 : List α)
    (h : l1.find? p = none) : (l1 ++ l2).find? p = l2.find? p := by
  induction l1 with
  | nil => simp
  | cons a l ih =>
    by_cases hp : p a
    · rw [List.find?_cons_of_pos _ hp] at h
      exact absurd h (by simp)
    · rw [List.find?_cons_of_neg _ hp] at h
      rw [List.cons_append, List.find?_cons_of_neg _ hp]
      exact ih h

/-- Claim C1: for every tenant and provider message id, processing the same
source message twice yields exactly one stored `SourceMessage` and at most
one `ExtractedResult`: `saveEmail` on an existing `(userId, emailId)` key
returns the existing record and leaves the store untouched; starting from a
store respecting the uniqueness invariant, a double `saveEmail` leaves
exactly one document with the key and the second call is a no-op returning
the same record; `saveTransaction` on an existing key returns the existing
transaction as a success no-op, never overwriting it and never erring, and a
double `saveTransaction` keeps at most one document with the key. -/
theorem mywallet_C1 (edb : List EmailDoc) (ei : SaveEmailInput)
    (tdb : List TransactionDoc) (ti : SaveTransactionInput) :
    (∀ e, edb.find? (emailKeyMatch ei.userId ei.emailId) = some e →
        saveEmail edb ei = (savedEmailOf e, edb)) ∧
    (countEmails edb ei.userId ei.emailId ≤ 1 →
        countEmails (saveEmail edb ei).2 ei.userId ei.emailId = 1 ∧
        saveEmail (saveEmail edb ei).2 ei =
          ((saveEmail edb ei).1, (saveEmail edb ei).2)) ∧
    (∀ t, tdb.find? (txKeyMatch ti.userId ti.emailId) = some t →
        saveTransaction tdb ti = (savedTransactionOf t, tdb)) ∧
    (countTxs tdb ti.userId ti.emailId ≤ 1 →
        countTxs (saveTransaction tdb ti).2 ti.userId ti.emailId = 1 ∧
        saveTransaction (saveTransaction tdb ti).2 ti =
          ((saveTransaction tdb ti).1, (saveTransaction tdb ti).2)) := by
  have hedoc : emailKeyMatch ei.userId ei.emailId (mkEmailDoc ei) = true := by
    simp [emailKeyMatch, mkEmailDoc]
  have htdoc : txKeyMatch ti.userId ti.emailId (mkTransactionDoc ti) = true := by
    simp [txKeyMatch, mkTransactionDoc]
  refine ⟨?_, ?_, ?_, ?_⟩
  · intro e he
    simp [saveEmail, he]
  · intro hle
    cases hfind : edb.find? (emailKeyMatch ei.userId ei.emailId) with
    | some e =>
      have hmem : e ∈ edb := List.mem_of_find?_eq_some hfind
      have hpe : emailKeyMatch ei.userId ei.emailId e = true := List.find?_some hfind
      have hfil : e ∈ edb.filter (emailKeyMatch ei.userId ei.emailId) :=
        List.mem_filter.2 ⟨hmem, hpe⟩
      have hpos : 0 < countEmails edb ei.userId ei.emailId :=
        List.length_pos_of_mem hfil
      refine ⟨?_, ?_⟩
      · have h2 : (saveEmail edb ei).2 = edb := by simp [saveEmail, hfind]
        rw [h2]
        exact le_antisymm hle hpos
      · simp [saveEmail, hfind]
    | none =>
      have hfil0 : edb.filter (emailKeyMatch ei.userId ei.emailId) = [] := by
        rw [List.filter_eq_nil_iff]
        intro a ha
        simpa using List.find?_eq_none.1 hfind a ha
      have h2 : (saveEmail edb ei).2 = edb ++ [mkEmailDoc ei] := by
        simp [saveEmail, hfind]
      have hfind2 : (edb ++ [mkEmailDoc ei]).find? (emailKeyMatch ei.userId ei.emailId) =
          some (mkEmailDoc ei) := by
        rw [find?_append_of_none _ _ _ hfind, List.find?_cons_of_pos _ hedoc]
      refine ⟨?_, ?_⟩
      · rw [h2]
        simp [countEmails, List.filter_append, hfil0, List.filter_cons, hedoc]
      · rw [h2]
        simp [saveEmail, hfind, hfind2]
  · intro t ht
    simp [saveTransaction, ht]
  · intro hle
    cases hfind : tdb.find? (txKeyMatch ti.userId ti.emailId) with
    | some t =>
      have hmem : t ∈ tdb := List.mem_of_find?_eq_some hfind
      have hpt : txKeyMatch ti.userId ti.emailId t = true := List.find?_some hfind
      have hfil : t ∈ tdb.filter (txKeyMatch ti.userId ti.emailId) :=
        List.mem_filter.2 ⟨hmem, hpt⟩
      have hpos : 0 < countTxs tdb ti.userId ti.emailId :=
        List.length_pos_of_mem hfil
      refine ⟨?_, ?_⟩
      · have h2 : (saveTransaction tdb ti).2 = tdb := by simp [saveTransaction, hfind]
        rw [h2]
        exact le_antisymm hle hpos
      · simp [saveTransaction, hfind]
    | none =>
      have hfil0 : tdb.filter (txKeyMatch ti.userId ti.emailId) = [] := by
        rw [List.filter_eq_nil_iff]
        intro a ha
        simpa using List.find?_eq_none.1 hfind a ha
      have h2 : (saveTransaction tdb ti).2 = tdb ++ [mkTransactionDoc ti] := by
        simp [saveTransaction, hfind]
      have hfind2 : (tdb ++ [mkTransactionDoc ti]).find? (txKeyMatch ti.userId ti.emailId) =
          some (mkTransactionDoc ti) := by
        rw [find?_append_of_none _ _ _ hfind, List.find?_cons_of_pos _ htdoc]
      refine ⟨?_, ?_⟩
      · rw [h2]
        simp [countTxs, List.filter_append, hfil0, List.filter_cons, htdoc]
      · rw [h2]
        simp [saveTransaction, hfind, hfind2]

/-- Concrete `saveEmail` input for the C1 witness. -/
def c1EmailInput : SaveEmailInput :=
  { userId := "u1", emailId := "m1", threadId := "t1", fromAddr := "a@b.c",
    toAddr := "me", subject := "s", date := "d", body := "b", snippet := "sn",
    rawHtml := none, fetchedBy := "wf" }

/-- Concrete stored transaction for the C1 witness. -/
def c1TxDoc : TransactionDoc :=
  { userId := "u1", emailId := "m1", emailSubject := "s", emailDate := "d",
    emailFrom := "a@b.c", rawEmailText := "b", transactionDate := "d",
    merchant := "shop", amount := 5, currency := "USD", category := "Food",
    transactionType := "debit", accountNumber := "1234", confidence := 9/10,
    bankName := "BankA", workflowId := "wf", workflowRunId := "r1" }

/-- Concrete `saveTransaction` input for the C1 witness (same tenant key as
`c1TxDoc` but different extracted fields, showing no overwrite happens). -/
def c1TxInput : SaveTransactionInput :=
  { userId := "u1", emailId := "m1", emailSubject := "s2", emailDate := "d2",
    emailFrom := "a@b.c", rawEmailText := "b2",
    extractedData :=
      { transactionDate := "d3", merchant := "other", amount := 7,
        currency := "USD", category := "Other", transactionType := "credit",
        accountNumber := "9999", confidence := 8/10, rawBankName := none },
    workflowId := "wf2", workflowRunId := "r2" }

/-- Witness for C1: a double `saveEmail` from the empty store leaves exactly
one document and is a no-op the second time, and `saveTransaction` against an
existing transaction returns it unchanged without touching the store. -/
theorem mywallet_C1_witness :
    countEmails (saveEmail [] c1EmailInput).2 "u1" "m1" = 1 ∧
    saveEmail (saveEmail [] c1EmailInput).2 c1EmailInput =
      ((saveEmail [] c1EmailInput).1, (saveEmail [] c1EmailInput).2) ∧
    saveTransaction [c1TxDoc] c1TxInput = (savedTransactionOf c1TxDoc, [c1TxDoc]) := by
  have h := mywallet_C1 [] c1EmailInput [c1TxDoc] c1TxInput
  have he := h.2.1 (by decide)
  refine ⟨?_, he.2, h.2.2.1 c1TxDoc (by rfl)⟩
  have : c1EmailInput.userId = "u1" ∧ c1EmailInput.emailId = "m1" := by decide
  rw [← this.1, ← this.2]
  exact he.1

/-- `CONFIDENCE_THRESHOLD = 0.7` (`shared/constants.ts`, concatenated
`email.controller.ts` line 222) — the single module constant both processing
workflows compare extraction confidence against. -/
def CONFIDENCE_THRESHOLD : Rat := 7/10

/-- An email as handed to the processing workflows (`shared/types`
`EmailData`-like shape; only the fields the workflows consult). -/
structure EmailMsg where
  id : String
  threadId : String
  fromAddr : String
  subject : String
  date : String
  body : String
  snippet : String
deriving DecidableEq

/-- The `MatchedPattern` projection returned by the `matchEmailPattern`
activity (concatenated `email.controller.ts` lines 403-408). -/
structure MatchedPattern where
  id : String
  name : String
  bankName : String
  extractionPrompt : String
deriving DecidableEq

/-- The projection `matchEmailPattern` applies to a matching pattern
document. -/
def toMatchedPattern (p : EmailPattern) : MatchedPattern :=
  { id := p.id, name := p.name, bankName := p.bankName,
    extractionPrompt := p.extractionPrompt }

/-- The per-message failure reason recorded in `processingError`.  In the
source these are the strings `No matching pattern found`,
`Low confidence: <value>` and the caught error message. -/
inductive FailReason where
  | noMatchingPattern
  | lowConfidence (confidence : Rat)
  | thrown (message : String)
deriving DecidableEq

/-- The payload of an `updateEmailProcessing` activity call (`shared/types`
`UpdateEmailProcessingInput`; `processedAt`, `processingWorkflowId`,
`matchedPatternName` and `transactionId` are not modelled). -/
structure UpdateEmailProcessingCall where
  emailId : String
  isProcessed : Bool
  matchedPatternId : Option String
  confidence : Option Rat
  processingError : Option FailReason
deriving DecidableEq

/-- One activity call issued by a processing workflow, in program order. -/
inductive WfAction where
  | saveEmail (e : EmailMsg)
  | matchPattern (emailFrom subject body : String)
  | extract (emailId prompt : String)
  | saveTransaction (emailId : String) (data : ExtractedTransaction)
  | updatePatternStats (patternId : String) (success : Bool)
  | markEmailAsProcessed (emailId : String)
  | updateEmailProcessing (call : UpdateEmailProcessingCall)
deriving DecidableEq

def WfAction.isSaveTransaction : WfAction → Bool
  | .saveTransaction _ _ => true
  | _ => false

def WfAction.isUpdateEmailProcessing : WfAction → Bool
  | .updateEmailProcessing _ => true
  | _ => false

def WfAction.isExtract : WfAction → Bool
  | .extract _ _ => true
  | _ => false

/-- Does this action mark the stored message processing-failed with a
low-confidence reason? -/
def marksLowConfidence (emailId : String) (c : Rat) (a : WfAction) : Bool :=
  match a with
  | .updateEmailProcessing u =>
    u.emailId == emailId && u.isProcessed == false &&
      decide (u.processingError = some (.lowConfidence c))
  | _ => false

/-- Does this action mark the stored message processing-failed with the given
caught error message? -/
def marksThrown (emailId message : String) (a : WfAction) : Bool :=
  match a with
  | .updateEmailProcessing u =>
    u.emailId == emailId && u.isProcessed == false &&
      decide (u.processingError = some (.thrown message))
  | _ => false

/-- The outcome a processing workflow records for one email in its run
result. -/
inductive StepOutcome where
  | noPattern
  | lowConfidence (confidence : Rat)
  | failed (message : String)
  | processed
deriving DecidableEq

/-- The body of the per-email loop of `emailProcessingWorkflow`
(`email-processing.workflow.ts` lines 73-227) as the list of activity calls it
issues plus the outcome recorded in the run result.  `pm` stands for the
`matchEmailPattern` activity's result and `ex` for the
`extractTransactionFromEmail` activity's result (`Except.error` = the
activity threw).  Note the `no pattern` (lines 100-111) and low-confidence
(lines 133-153) branches record the failure only in the run result and issue
no `updateEmailProcessing` call; only the caught-exception handler (lines
201-226) and the success path (lines 177-186) update the stored message. -/
def emailProcessingStep (pm : EmailMsg → Option MatchedPattern)
    (ex : EmailMsg → Except String ExtractedTransaction)
    (e : EmailMsg) : List WfAction × StepOutcome :=
  match pm e with
  | none => ([.saveEmail e, .matchPattern e.fromAddr e.subject e.body], .noPattern)
  | some p =>
    match ex e with
    | .error msg =>
      ([.saveEmail e, .matchPattern e.fromAddr e.subject e.body,
        .extract e.id p.extractionPrompt,
        .updateEmailProcessing
          { emailId := e.id, isProcessed := false, matchedPatternId := none,
            confidence := none, processingError := some (.thrown msg) }],
       .failed msg)
    | .ok d =>
      if d.confidence < CONFIDENCE_THRESHOLD then
        ([.saveEmail e, .matchPattern e.fromAddr e.subject e.body,
          .extract e.id p.extractionPrompt, .updatePatternStats p.id false],
         .lowConfidence d.confidence)
      else
        ([.saveEmail e, .matchPattern e.fromAddr e.subject e.body,
          .extract e.id p.extractionPrompt, .saveTransaction e.id d,
          .updatePatternStats p.id true, .markEmailAsProcessed e.id,
          .updateEmailProcessing
            { emailId := e.id, isProcessed := true, matchedPatternId := some p.id,
              confidence := some d.confidence, processingError := none }],
         .processed)

/-- The per-email processing body of `scheduledEmailProcessingWorkflow`
(`scheduled-email-processing.workflow.ts` lines 140-281).  Unlike
`emailProcessingStep`, the no-pattern branch (lines 160-171) and the
low-confidence branch (lines 191-213) issue an `updateEmailProcessing` call
marking the stored message with the failure reason. -/
def scheduledProcessStep (pm : EmailMsg → Option MatchedPattern)
    (ex : EmailMsg → Except String ExtractedTransaction)
    (e : EmailMsg) : List WfAction × StepOutcome :=
  match pm e with
  | none =>
    ([.matchPattern e.fromAddr e.subject e.body,
      .updateEmailProcessing
        { emailId := e.id, isProcessed := false, matchedPatternId := none,
          confidence := none, processingError := some .noMatchingPattern }],
     .noPattern)
  | some p =>
    match ex e with
    | .error msg =>
      ([.matchPattern e.fromAddr e.subject e.body,
        .extract e.id p.extractionPrompt,
        .updateEmailProcessing
          { emailId := e.id, isProcessed := false, matchedPatternId := none,
            confidence := none, processingError := some (.thrown msg) }],
       .failed msg)
    | .ok d =>
      if d.confidence < CONFIDENCE_THRESHOLD then
        ([.matchPattern e.fromAddr e.subject e.body,
          .extract e.id p.extractionPrompt,
          .updateEmailProcessing
            { emailId := e.id, isProcessed := false, matchedPatternId := none,
              confidence := some d.confidence,
              processingError := some (.lowConfidence d.confidence) },
          .updatePatternStats p.id false],
         .lowConfidence d.confidence)
      else
        ([.matchPattern e.fromAddr e.subject e.body,
          .extract e.id p.extractionPrompt, .saveTransaction e.id d,
          .updatePatternStats p.id true, .markEmailAsProcessed e.id,
          .updateEmailProcessing
            { emailId := e.id, isProcessed := true, matchedPatternId := some p.id,
              confidence := some d.confidence, processingError := none }],
         .processed)

/-- The journey of one email through `scheduledEmailProcessingWorkflow`: the
storage loop (lines 100-130) saves the raw email for the whole batch before
the processing loop (lines 140-281) runs, so per email the `saveEmail` call
precedes all of its processing calls. -/
def scheduledEmailJourney (pm : EmailMsg → Option MatchedPattern)
    (ex : EmailMsg → Except String ExtractedTransaction)
    (e : EmailMsg) : List WfAction :=
  WfAction.saveEmail e :: (scheduledProcessStep pm ex e).1

/-- The whole per-email loop of `emailProcessingWorkflow` over a batch: each
email contributes its activity calls and exactly one recorded outcome; a
failure for one email never aborts the loop (lines 201-226 catch it). -/
def emailProcessingRun (pm : EmailMsg → Option MatchedPattern)
    (ex : EmailMsg → Except String ExtractedTransaction) :
    List EmailMsg → List WfAction × List StepOutcome
  | [] => ([], [])
  | e :: rest =>
    let step := emailProcessingStep pm ex e
    let further := emailProcessingRun pm ex rest
    (step.1 ++ further.1, step.2 :: further.2)

lemma emailProcessingStep_ok (pm : EmailMsg → Option MatchedPattern)
    (ex : EmailMsg → Except String ExtractedTransaction) (e : EmailMsg)
    (p : MatchedPattern) (d : ExtractedTransaction)
    (hpm : pm e = some p) (hex : ex e = Except.ok d) :
    emailProcessingStep pm ex e =
      if d.confidence < CONFIDENCE_THRESHOLD then
        ([.saveEmail e, .matchPattern e.fromAddr e.subject e.body,
          .extract e.id p.extractionPrompt, .updatePatternStats p.id false],
         .lowConfidence d.confidence)
      else
        ([.saveEmail e, .matchPattern e.fromAddr e.subject e.body,
          .extract e.id p.extractionPrompt, .saveTransaction e.id d,
          .updatePatternStats p.id true, .markEmailAsProcessed e.id,
          .updateEmailProcessing
            { emailId := e.id, isProcessed := true, matchedPatternId := some p.id,
              confidence := some d.confidence, processingError := none }],
         .processed) := by
  rw [emailProcessingStep, hpm, hex]

lemma scheduledProcessStep_ok (pm : EmailMsg → Option MatchedPattern)
    (ex : EmailMsg → Except String ExtractedTransaction) (e : EmailMsg)
    (p : MatchedPattern) (d : ExtractedTransaction)
    (hpm : pm e = some p) (hex : ex e = Except.ok d) :
    scheduledProcessStep pm ex e =
      if d.confidence < CONFIDENCE_THRESHOLD then
        ([.matchPattern e.fromAddr e.subject e.body,
          .extract e.id p.extractionPrompt,
          .updateEmailProcessing
            { emailId := e.id, isProcessed := false, matchedPatternId := none,
              confidence := some d.confidence,
              processingError := some (.lowConfidence d.confidence) },
          .updatePatternStats p.id false],
         .lowConfidence d.confidence)
      else
        ([.matchPattern e.fromAddr e.subject e.body,
          .extract e.id p.extractionPrompt, .saveTransaction e.id d,
          .updatePatternStats p.id true, .markEmailAsProcessed e.id,
          .updateEmailProcessing
            { emailId := e.id, isProcessed := true, matchedPatternId := some p.id,
              confidence := some d.confidence, processingError := none }],
         .processed) := by
  rw [scheduledProcessStep, hpm, hex]

/-- Shared gate characterisation: with a matched pattern and a successful
extraction, either workflow persists a transaction exactly when the
confidence reaches `CONFIDENCE_THRESHOLD`. -/
lemma gate_saveTransaction_iff (pm : EmailMsg → Option MatchedPattern)
    (ex : EmailMsg → Except String ExtractedTransaction) (e : EmailMsg)
    (p : MatchedPattern) (d : ExtractedTransaction)
    (hpm : pm e = some p) (hex : ex e = Except.ok d) :
    ((emailProcessingStep pm ex e).1.any WfAction.isSaveTransaction = true ↔
      CONFIDENCE_THRESHOLD ≤ d.confidence) ∧
    ((scheduledProcessStep pm ex e).1.any WfAction.isSaveTransaction = true ↔
      CONFIDENCE_THRESHOLD ≤ d.confidence) := by
  rw [emailProcessingStep_ok pm ex e p d hpm hex,
    scheduledProcessStep_ok pm ex e p d hpm hex]
  by_cases hc : d.confidence < CONFIDENCE_THRESHOLD
  · rw [if_pos hc, if_pos hc]
    constructor
    · simp [List.any, WfAction.isSaveTransaction]
      exact hc
    · simp [List.any, WfAction.isSaveTransaction]
      exact hc
  · rw [if_neg hc, if_neg hc]
    constructor
    · simp [List.any, WfAction.isSaveTransaction]
      exact not_lt.1 hc
    · simp [List.any, WfAction.isSaveTransaction]
      exact not_lt.1 hc

/-- Claim C3 (amended): with a matched rule and a successful extraction, both
workflows persist an `ExtractedResult` if and only if the confidence is at
least `CONFIDENCE_THRESHOLD` (equality accepted, strictly below rejected).
On rejection no transaction is saved and the rule's fail counter is updated
in both workflows; the scheduled workflow additionally marks the stored
message processing-failed with a low-confidence reason, while
`emailProcessingWorkflow` records the failure only in its run result and
issues no `updateEmailProcessing` call at all. -/
theorem mywallet_C3_amended (pm : EmailMsg → Option MatchedPattern)
    (ex : EmailMsg → Except String ExtractedTransaction) (e : EmailMsg)
    (p : MatchedPattern) (d : ExtractedTransaction)
    (hpm : pm e = some p) (hex : ex e = Except.ok d) :
    ((emailProcessingStep pm ex e).1.any WfAction.isSaveTransaction = true ↔
      CONFIDENCE_THRESHOLD ≤ d.confidence) ∧
    ((scheduledProcessStep pm ex e).1.any WfAction.isSaveTransaction = true ↔
      CONFIDENCE_THRESHOLD ≤ d.confidence) ∧
    (d.confidence < CONFIDENCE_THRESHOLD →
      (emailProcessingStep pm ex e).1 =
        [.saveEmail e, .matchPattern e.fromAddr e.subject e.body,
         .extract e.id p.extractionPrompt, .updatePatternStats p.id false] ∧
      (emailProcessingStep pm ex e).2 = .lowConfidence d.confidence ∧
      (emailProcessingStep pm ex e).1.any WfAction.isUpdateEmailProcessing = false ∧
      (scheduledProcessStep pm ex e).1.any (marksLowConfidence e.id d.confidence) = true ∧
      (scheduledProcessStep pm ex e).1.any WfAction.isSaveTransaction = false) ∧
    (CONFIDENCE_THRESHOLD ≤ d.confidence →
      (emailProcessingStep pm ex e).1.any WfAction.isSaveTransaction = true ∧
      (scheduledProcessStep pm ex e).1.any WfAction.isSaveTransaction = true) := by
  have hgate := gate_saveTransaction_iff pm ex e p d hpm hex
  refine ⟨hgate.1, hgate.2, ?_, ?_⟩
  · intro hc
    rw [emailProcessingStep_ok pm ex e p d hpm hex,
      scheduledProcessStep_ok pm ex e p d hpm hex, if_pos hc, if_pos hc]
    refine ⟨rfl, rfl, ?_, ?_, ?_⟩
    · simp [List.any, WfAction.isUpdateEmailProcessing]
    · simp [List.any, marksLowConfidence]
    · simp [List.any, WfAction.isSaveTransaction]
  · intro hc
    exact ⟨hgate.1.2 hc, hgate.2.2 hc⟩

/-- Concrete email for the C3 theorems. -/
def c3Email : EmailMsg :=
  { id := "m3", threadId := "t", fromAddr := "a@b.c", subject := "s",
    date := "d", body := "b", snippet := "sn" }

/-- Concrete matched rule for the C3 theorems. -/
def c3Pattern : MatchedPattern :=
  { id := "p3", name := "P", bankName := "B", extractionPrompt := "x" }

/-- Pattern-matcher oracle for the C3 theorems: every email matches. -/
def c3pm : EmailMsg → Option MatchedPattern := fun _ => some c3Pattern

/-- Extraction result with confidence 1/2, strictly below the threshold. -/
def c3LowData : ExtractedTransaction :=
  { transactionDate := "d", merchant := "m", amount := 1, currency := "USD",
    category := "Other", transactionType := "debit", accountNumber := "1",
    confidence := 1/2, rawBankName := none }

/-- Extraction oracle returning the low-confidence result. -/
def c3exLow : EmailMsg → Except String ExtractedTransaction :=
  fun _ => Except.ok c3LowData

/-- Counterexample to C3 as stated: at a concrete low-confidence input the
`emailProcessingWorkflow` rejection path issues no `updateEmailProcessing`
call whatsoever, so the stored `SourceMessage` is never marked
processing-failed (the failure exists only in the run result), contradicting
the claim that on rejection the message is marked processing-failed with a
low-confidence reason.  (The transaction is correctly not persisted.) -/
theorem mywallet_C3_counterexample :
    c3LowData.confidence < CONFIDENCE_THRESHOLD ∧
    (emailProcessingStep c3pm c3exLow c3Email).1.any WfAction.isSaveTransaction = false ∧
    (emailProcessingStep c3pm c3exLow c3Email).1.any WfAction.isUpdateEmailProcessing = false := by
  have hlt : c3LowData.confidence < CONFIDENCE_THRESHOLD := by
    norm_num [c3LowData, CONFIDENCE_THRESHOLD]
  have hstep := emailProcessingStep_ok c3pm c3exLow c3Email c3Pattern c3LowData rfl rfl
  rw [if_pos hlt] at hstep
  refine ⟨hlt, ?_, ?_⟩
  · rw [hstep]
    rfl
  · rw [hstep]
    rfl

/-- Extraction result whose confidence is exactly the threshold. -/
def c3BoundaryData : ExtractedTransaction :=
  { transactionDate := "d", merchant := "m", amount := 1, currency := "USD",
    category := "Other", transactionType := "debit", accountNumber := "1",
    confidence := CONFIDENCE_THRESHOLD, rawBankName := none }

/-- Extraction oracle returning the boundary-confidence result. -/
def c3exBoundary : EmailMsg → Except String ExtractedTransaction :=
  fun _ => Except.ok c3BoundaryData

/-- Witness for the amended C3: confidence exactly at the threshold is
accepted by both workflows. -/
theorem mywallet_C3_witness :
    (emailProcessingStep c3pm c3exBoundary c3Email).1.any WfAction.isSaveTransaction = true ∧
    (scheduledProcessStep c3pm c3exBoundary c3Email).1.any WfAction.isSaveTransaction = true := by
  have h := mywallet_C3_amended c3pm c3exBoundary c3Email c3Pattern c3BoundaryData rfl rfl
  exact h.2.2.2 (le_refl CONFIDENCE_THRESHOLD)

/-- Claim C5 (amended): for a message matching no rule, both workflows
persist the raw message first and never invoke the extraction activity.  The
scheduled workflow then marks the stored message processing-failed with the
no-matching-pattern reason; `emailProcessingWorkflow` records the failure
only in its run result (`No matching pattern found` pushed to `errors`) and
issues no `updateEmailProcessing` call, leaving the stored message
unmarked. -/
theorem mywallet_C5_amended (pm : EmailMsg → Option MatchedPattern)
    (ex : EmailMsg → Except String ExtractedTransaction) (e : EmailMsg)
    (hpm : pm e = none) :
    (emailProcessingStep pm ex e).1 =
      [.saveEmail e, .matchPattern e.fromAddr e.subject e.body] ∧
    (emailProcessingStep pm ex e).2 = .noPattern ∧
    (emailProcessingStep pm ex e).1.head? = some (.saveEmail e) ∧
    (emailProcessingStep pm ex e).1.any WfAction.isExtract = false ∧
    (emailProcessingStep pm ex e).1.any WfAction.isSaveTransaction = false ∧
    (emailProcessingStep pm ex e).1.any WfAction.isUpdateEmailProcessing = false ∧
    scheduledEmailJourney pm ex e =
      [.saveEmail e, .matchPattern e.fromAddr e.subject e.body,
       .updateEmailProcessing
         { emailId := e.id, isProcessed := false, matchedPatternId := none,
           confidence := none, processingError := some .noMatchingPattern }] ∧
    (scheduledEmailJourney pm ex e).head? = some (.saveEmail e) ∧
    (scheduledEmailJourney pm ex e).any WfAction.isExtract = false ∧
    (scheduledEmailJourney pm ex e).any WfAction.isSaveTransaction = false := by
  have hstep : emailProcessingStep pm ex e =
      ([.saveEmail e, .matchPattern e.fromAddr e.subject e.body], .noPattern) := by
    rw [emailProcessingStep, hpm]
  have hsched : scheduledProcessStep pm ex e =
      ([.matchPattern e.fromAddr e.subject e.body,
        .updateEmailProcessing
          { emailId := e.id, isProcessed := false, matchedPatternId := none,
            confidence := none, processingError := some .noMatchingPattern }],
       .noPattern) := by
    rw [scheduledProcessStep, hpm]
  refine ⟨?_, ?_, ?_, ?_, ?_, ?_, ?_, ?_, ?_, ?_⟩ <;>
    simp [hstep, scheduledEmailJourney, hsched, WfAction.isExtract,
      WfAction.isSaveTransaction, WfAction.isUpdateEmailProcessing]

/-- Concrete email for the C5 theorems. -/
def c5Email : EmailMsg :=
  { id := "m5", threadId := "t", fromAddr := "x@y.z", subject := "s5",
    date := "d", body := "b5", snippet := "sn" }

/-- Pattern-matcher oracle for the C5 theorems: nothing matches. -/
def c5pmNone : EmailMsg → Option MatchedPattern := fun _ => none

/-- Extraction oracle for the C5 theorems (never reached). -/
def c5ex : EmailMsg → Except String ExtractedTransaction :=
  fun _ => Except.error "unreachable"

/-- Counterexample to C5 as stated: at a concrete no-match input,
`emailProcessingWorkflow` stores the raw message and calls the matcher but
issues no `updateEmailProcessing` call, so the stored `SourceMessage` is
never marked processing-failed with a no-matching-rule reason — contradicting
the claim's "then marks that SourceMessage processing-failed".  (Extraction
is correctly never invoked.) -/
theorem mywallet_C5_counterexample :
    c5pmNone c5Email = none ∧
    (emailProcessingStep c5pmNone c5ex c5Email).1 =
      [.saveEmail c5Email, .matchPattern "x@y.z" "s5" "b5"] ∧
    (emailProcessingStep c5pmNone c5ex c5Email).1.any WfAction.isUpdateEmailProcessing = false ∧
    (emailProcessingStep c5pmNone c5ex c5Email).1.any WfAction.isExtract = false := by
  exact ⟨rfl, rfl, rfl, rfl⟩

/-- Witness for the amended C5 at the concrete no-match input. -/
theorem mywallet_C5_witness :
    (emailProcessingStep c5pmNone c5ex c5Email).1.head? = some (.saveEmail c5Email) ∧
    (scheduledEmailJourney c5pmNone c5ex c5Email).head? = some (.saveEmail c5Email) ∧
    (scheduledEmailJourney c5pmNone c5ex c5Email).any WfAction.isExtract = false := by
  have h := mywallet_C5_amended c5pmNone c5ex c5Email rfl
  exact ⟨h.2.2.1, h.2.2.2.2.2.2.2.1, h.2.2.2.2.2.2.2.2.1⟩

/-- A JSON value as far as the extraction validator inspects one: a string, a
number (NaN kept apart, as `typeof NaN === "number"` but `isNaN` rejects it),
a boolean or null. -/
inductive JsonVal where
  | str (s : String)
  | num (value : Rat)
  | nanVal
  | boolVal (b : Bool)
  | nullVal
deriving DecidableEq

/-- The parsed JSON object returned by the AI extraction call. -/
structure RawExtraction where
  fields : List (String × JsonVal)
deriving DecidableEq

/-- Field lookup (`field in data` / `data.field`). -/
def RawExtraction.get? (r : RawExtraction) (key : String) : Option JsonVal :=
  (r.fields.find? (fun kv => kv.1 == key)).map (fun kv => kv.2)

/-- The required-field list of `OpenAIClient.validateTransactionData`
(concatenated `gmail-webhook.routes.ts` lines 661-669). -/
def requiredFields : List String :=
  ["transactionDate", "merchant", "amount", "currency", "category",
   "transactionType", "accountNumber"]

/-- `OpenAIClient.validateTransactionData` (concatenated
`gmail-webhook.routes.ts` lines 660-691): every required field present, the
amount a non-NaN number, and the transaction type one of `debit`/`credit`. -/
def validateTransactionData (data : RawExtraction) : Bool :=
  requiredFields.all (fun f => (data.get? f).isSome) &&
  (match data.get? "amount" with
   | some (.num _) => true
   | _ => false) &&
  (match data.get? "transactionType" with
   | some (.str t) => t == "debit" || t == "credit"
   | _ => false)

/-- JavaScript string coercion used when building the result: a string value
passes through, anything else is not inspected further by the claims and is
modelled as the empty string. -/
def jsonStr (v : Option JsonVal) : String :=
  match v with
  | some (.str s) => s
  | _ => ""

/-- Numeric field access; non-numbers are modelled as 0. -/
def jsonNum (v : Option JsonVal) : Rat :=
  match v with
  | some (.num q) => q
  | _ => 0

/-- `extractTransactionFromEmail` (`part_015` lines 10-82): call the client,
validate the parsed response; on validation failure THROW
`Extracted data validation failed` (modelled as `Except.error`; the catch
block at lines 78-81 logs and re-throws).  On success build the
`ExtractedTransaction`, with JavaScript-falsy fallbacks
`currency || "USD"` and `confidence || 0.8`. -/
def extractTransactionFromEmail (raw : RawExtraction) : Except String ExtractedTransaction :=
  if validateTransactionData raw then
    Except.ok
      { transactionDate := jsonStr (raw.get? "transactionDate"),
        merchant := jsonStr (raw.get? "merchant"),
        amount := jsonNum (raw.get? "amount"),
        currency :=
          (if jsonStr (raw.get? "currency") == "" then "USD"
           else jsonStr (raw.get? "currency")),
        category := jsonStr (raw.get? "category"),
        transactionType := jsonStr (raw.get? "transactionType"),
        accountNumber := jsonStr (raw.get? "accountNumber"),
        confidence :=
          (if jsonNum (raw.get? "confidence") == 0 then 8/10
           else jsonNum (raw.get? "confidence")),
        rawBankName :=
          (match raw.get? "bankName" with
           | some (.str s) => some s
           | _ => none) }
  else Except.error "Extracted data validation failed"

/-- Claim C6 (amended): on a malformed extraction response the invoker raises
the validation error — it never returns a confidence-0 result; the workflow's
per-message catch then records the failure on the stored message
(`processingError` with the thrown message, no transaction saved) and the
loop continues: every email of the batch still yields exactly one recorded
outcome and the remaining emails are processed. -/
theorem mywallet_C6_amended :
    (∀ raw, validateTransactionData raw = false →
      extractTransactionFromEmail raw = Except.error "Extracted data validation failed") ∧
    (∀ pm ex (e : EmailMsg) (p : MatchedPattern) (msg : String),
      pm e = some p → ex e = Except.error msg →
      (emailProcessingStep pm ex e).1.any (marksThrown e.id msg) = true ∧
      (emailProcessingStep pm ex e).2 = .failed msg ∧
      (emailProcessingStep pm ex e).1.any WfAction.isSaveTransaction = false) ∧
    (∀ pm ex es, (emailProcessingRun pm ex es).2.length = es.length) ∧
    (∀ pm ex e rest, (emailProcessingRun pm ex (e :: rest)).1 =
      (emailProcessingStep pm ex e).1 ++ (emailProcessingRun pm ex rest).1) := by
  refine ⟨?_, ?_, ?_, ?_⟩
  · intro raw hval
    rw [extractTransactionFromEmail, if_neg (by simp [hval])]
  · intro pm ex e p msg hpm hex
    have hstep : emailProcessingStep pm ex e =
        ([.saveEmail e, .matchPattern e.fromAddr e.subject e.body,
          .extract e.id p.extractionPrompt,
          .updateEmailProcessing
            { emailId := e.id, isProcessed := false, matchedPatternId := none,
              confidence := none, processingError := some (.thrown msg) }],
         .failed msg) := by
      rw [emailProcessingStep, hpm, hex]
    refine ⟨?_, ?_, ?_⟩ <;>
      simp [hstep, marksThrown, WfAction.isSaveTransaction]
  · intro pm ex es
    induction es with
    | nil => rfl
    | cons e rest ih => simp [emailProcessingRun, ih]
  · intro pm ex e rest
    rfl

/-- A malformed extraction response: `merchant` (among others) is missing. -/
def c6RawBad : RawExtraction :=
  { fields := [("transactionDate", .str "2024-01-01"), ("amount", .num 5)] }

/-- Concrete email for the C6 witness. -/
def c6Email : EmailMsg :=
  { id := "m6", threadId := "t", fromAddr := "a@b.c", subject := "s6",
    date := "d", body := "b6", snippet := "sn" }

/-- A second email showing the loop continues past the failure. -/
def c6Email2 : EmailMsg :=
  { id := "m7", threadId := "t", fromAddr := "a@b.c", subject := "s7",
    date := "d", body := "b7", snippet := "sn" }

/-- Concrete matched rule for the C6 witness. -/
def c6Pattern : MatchedPattern :=
  { id := "p6", name := "P6", bankName := "B", extractionPrompt := "x6" }

/-- Pattern oracle for the C6 witness. -/
def c6pm : EmailMsg → Option MatchedPattern := fun _ => some c6Pattern

/-- Extraction oracle for the C6 witness: the invoker run on the malformed
response, which throws. -/
def c6ex : EmailMsg → Except String ExtractedTransaction :=
  fun _ => extractTransactionFromEmail c6RawBad

/-- Witness for the amended C6 at the malformed concrete response. -/
theorem mywallet_C6_witness :
    extractTransactionFromEmail c6RawBad = Except.error "Extracted data validation failed" ∧
    (emailProcessingStep c6pm c6ex c6Email).1.any
      (marksThrown "m6" "Extracted data validation failed") = true ∧
    (emailProcessingRun c6pm c6ex [c6Email, c6Email2]).2.length = 2 := by
  have h := mywallet_C6_amended
  have hbad := h.1 c6RawBad (by rfl)
  have hstep := h.2.1 c6pm c6ex c6Email c6Pattern "Extracted data validation failed" rfl hbad
  exact ⟨hbad, hstep.1, (h.2.2.1 c6pm c6ex [c6Email, c6Email2]).trans rfl⟩

/-- Counterexample to C6 as stated: at the concrete malformed response the
extraction invoker raises (`Except.error`, piped through Temporal as a thrown
activity error) instead of returning a failed extraction with confidence
forced to 0 — no `Except.ok` result of any confidence, let alone 0, is
produced. -/
theorem mywallet_C6_counterexample :
    validateTransactionData c6RawBad = false ∧
    extractTransactionFromEmail c6RawBad = Except.error "Extracted data validation failed" := by
  exact ⟨rfl, rfl⟩

/-- Claim C9 (amended): the confidence threshold is the single module
constant `CONFIDENCE_THRESHOLD = 0.7`, i.e. exactly 70% — not strictly above
70%. -/
theorem mywallet_C9_amended :
    CONFIDENCE_THRESHOLD = 7/10 ∧
    (∀ c : Rat, ¬ c < CONFIDENCE_THRESHOLD ↔ 7/10 ≤ c) := by
  refine ⟨rfl, fun c => ?_⟩
  rw [not_lt]
  exact Iff.rfl

/-- Counterexample to C9 as stated: the default threshold is not strictly
above 70% — it is exactly 0.7. -/
theorem mywallet_C9_counterexample :
    ¬ ((7/10 : Rat) < CONFIDENCE_THRESHOLD) := by
  exact lt_irrefl (7/10 : Rat)

/-- A Gmail message as returned by the history fetch (`shared/types`
`GmailMessage`; the fields `fetchGmailChanges` copies into the store). -/
structure GMsg where
  id : String
  threadId : String
  fromAddr : String
  toAddr : String
  subject : String
  internalDate : String
  body : String
  snippet : String
deriving DecidableEq

/-- The `Email` document upserted by `fetchGmailChanges` (`part_008` lines
163-179; this activities version keys the store by `emailId` alone). -/
structure SyncEmailDoc where
  emailId : String
  threadId : String
  fromAddr : String
  toAddr : String
  subject : String
  date : String
  body : String
  snippet : String
  fetchedBy : String
  isProcessed : Bool
deriving DecidableEq

/-- The document built for one fetched message (`part_008` lines 165-177). -/
def syncDocOf (userId : String) (m : GMsg) : SyncEmailDoc :=
  { emailId := m.id, threadId := m.threadId, fromAddr := m.fromAddr,
    toAddr := m.toAddr, subject := m.subject, date := m.internalDate,
    body := m.body, snippet := m.snippet,
    fetchedBy := "gmail-sync-" ++ userId, isProcessed := false }

/-- `Email.findOneAndUpdate({emailId}, {...}, {upsert: true})`: replace the
document with the same `emailId` in place, or append a new one. -/
def upsertSyncEmail (db : List SyncEmailDoc) (d : SyncEmailDoc) : List SyncEmailDoc :=
  if db.any (fun x => x.emailId == d.emailId) then
    db.map (fun x => if x.emailId == d.emailId then d else x)
  else db ++ [d]

/-- The `GmailAccount` document (`part_009` `IGmailAccount`; the fields the
subscription workflow's activities mutate). -/
structure GmailAccount where
  userId : String
  historyId : Option String
  isActive : Bool
  totalEmailsSynced : Nat
  errorCount : Nat
  lastError : Option String
  watchExpiration : Option String
deriving DecidableEq

/-- The persistent state the sync activities touch: the email store and the
account document. -/
structure SyncState where
  db : List SyncEmailDoc
  acct : GmailAccount
deriving DecidableEq

/-- `FetchGmailChangesOutput` (`shared/types`): the fetched delta plus the
new cursor. -/
structure FetchGmailChangesOutput where
  messages : List GMsg
  newHistoryId : String
deriving DecidableEq

/-- Durable side effects of the subscription workflow and its activities, in
program order. -/
inductive SyncEvent where
  | fetchedDelta (startHistoryId : String)
  | savedMessage (emailId : String)
  | saveFailed (emailId : String)
  | advancedAccountCursor (newHistoryId : String)
  | advancedWorkflowCursor (newHistoryId : String)
  | renewedWatch
  | deactivatedAccount
deriving DecidableEq

def SyncEvent.isMsgEvent : SyncEvent → Bool
  | .savedMessage _ => true
  | .saveFailed _ => true
  | _ => false

def SyncEvent.isFetchedDelta : SyncEvent → Bool
  | .fetchedDelta _ => true
  | _ => false

def SyncEvent.isRenewal : SyncEvent → Bool
  | .renewedWatch => true
  | _ => false

/-- An `IncomingWebhookSignal` (`shared/types`). -/
structure Webhook where
  emailAddress : String
  historyId : String
deriving DecidableEq

/-- The subscription workflow's in-memory state relevant to the cursor:
persistent sync state plus the workflow-local `currentHistoryId`. -/
structure WfState where
  sync : SyncState
  currentHistoryId : Option String
deriving DecidableEq

/-- The per-message save loop of `fetchGmailChanges` (`part_008` lines
160-183): each message is upserted; a failing save is caught and logged
(`console.error`) without aborting the loop.  `saveOk` is the oracle deciding
which saves succeed; the event list records one event per message. -/
def saveMessagesLoop (userId : String) (saveOk : GMsg → Bool) :
    List SyncEmailDoc → List GMsg → List SyncEmailDoc × List SyncEvent
  | db, [] => (db, [])
  | db, m :: ms =>
    if saveOk m then
      let next := saveMessagesLoop userId saveOk (upsertSyncEmail db (syncDocOf userId m)) ms
      (next.1, SyncEvent.savedMessage m.id :: next.2)
    else
      let next := saveMessagesLoop userId saveOk db ms
      (next.1, SyncEvent.saveFailed m.id :: next.2)

/-- `fetchGmailChanges` (`part_008` lines 148-200): fetch the delta from the
gateway oracle `fh`, run the save loop over every message, and only then
update the account's `historyId` to the new cursor (lines 186-193,
incrementing `totalEmailsSynced`). -/
def fetchGmailChanges (fh : String → List GMsg × String) (saveOk : GMsg → Bool)
    (userId : String) (st : SyncState) (startHistoryId : String) :
    SyncState × FetchGmailChangesOutput × List SyncEvent :=
  let msgs := (fh startHistoryId).1
  let newHid := (fh startHistoryId).2
  let saved := saveMessagesLoop userId saveOk st.db msgs
  let acct' := { st.acct with
    historyId := some newHid,
    totalEmailsSynced := st.acct.totalEmailsSynced + msgs.length }
  (⟨saved.1, acct'⟩, ⟨msgs, newHid⟩,
   SyncEvent.fetchedDelta startHistoryId ::
     (saved.2 ++ [SyncEvent.advancedAccountCursor newHid]))

/-- Processing one webhook inside the inner loop of
`gmailSubscriptionWorkflow` (`gmail-subscription.workflow.ts` lines 120-156):
call `fetchGmailChanges` starting from `currentHistoryId` (falling back to
the webhook's cursor hint, line 139), then — only after the activity has
completed — assign the workflow cursor `currentHistoryId = newHistoryId`
(line 142). -/
def processWebhook (fh : String → List GMsg × String) (saveOk : GMsg → Bool)
    (userId : String) (st : WfState) (w : Webhook) : WfState × List SyncEvent :=
  let start := st.currentHistoryId.getD w.historyId
  let r := fetchGmailChanges fh saveOk userId st.sync start
  ({ sync := r.1, currentHistoryId := some r.2.1.newHistoryId },
   r.2.2 ++ [SyncEvent.advancedWorkflowCursor r.2.1.newHistoryId])

lemma saveMessagesLoop_events (userId : String) (saveOk : GMsg → Bool)
    (db : List SyncEmailDoc) (msgs : List GMsg) :
    (∀ ev ∈ (saveMessagesLoop userId saveOk db msgs).2, ev.isMsgEvent = true) ∧
    (∀ m ∈ msgs,
      SyncEvent.savedMessage m.id ∈ (saveMessagesLoop userId saveOk db msgs).2 ∨
      SyncEvent.saveFailed m.id ∈ (saveMessagesLoop userId saveOk db msgs).2) := by
  induction msgs generalizing db with
  | nil => simp [saveMessagesLoop]
  | cons m ms ih =>
    by_cases hok : saveOk m
    · have hloop : saveMessagesLoop userId saveOk db (m :: ms) =
          ((saveMessagesLoop userId saveOk (upsertSyncEmail db (syncDocOf userId m)) ms).1,
           SyncEvent.savedMessage m.id ::
             (saveMessagesLoop userId saveOk (upsertSyncEmail db (syncDocOf userId m)) ms).2) := by
        rw [saveMessagesLoop, if_pos hok]
      rw [hloop]
      have hih := ih (upsertSyncEmail db (syncDocOf userId m))
      constructor
      · intro ev hev
        rcases List.mem_cons.1 hev with hev | hev
        · subst hev; rfl
        · exact hih.1 ev hev
      · intro m2 hm2
        rcases List.mem_cons.1 hm2 with hm2 | hm2
        · subst hm2; exact Or.inl (List.mem_cons_self _ _)
        · rcases hih.2 m2 hm2 with h | h
          · exact Or.inl (List.mem_cons_of_mem _ h)
          · exact Or.inr (List.mem_cons_of_mem _ h)
    · have hloop : saveMessagesLoop userId saveOk db (m :: ms) =
          ((saveMessagesLoop userId saveOk db ms).1,
           SyncEvent.saveFailed m.id :: (saveMessagesLoop userId saveOk db ms).2) := by
        rw [saveMessagesLoop, if_neg hok]
      rw [hloop]
      have hih := ih db
      constructor
      · intro ev hev
        rcases List.mem_cons.1 hev with hev | hev
        · subst hev; rfl
        · exact hih.1 ev hev
      · intro m2 hm2
        rcases List.mem_cons.1 hm2 with hm2 | hm2
        · subst hm2; exact Or.inr (List.mem_cons_self _ _)
        · rcases hih.2 m2 hm2 with h | h
          · exact Or.inl (List.mem_cons_of_mem _ h)
          · exact Or.inr (List.mem_cons_of_mem _ h)

/-- Claim C2: for one webhook the event trace is — delta fetch, one
save-or-failure event per message of the delta, account cursor advancement,
workflow cursor advancement last; so the cursor is advanced only after every
message has been durably saved or had its failure recorded.  A crash before
the workflow cursor advancement leaves the old cursor in place, and the
replayed run's final workflow and account cursors equal those of a single
clean run (the fetch being repeated from the same old cursor). -/
theorem mywallet_C2 (fh : String → List GMsg × String) (saveOk : GMsg → Bool)
    (userId : String) (st : WfState) (w : Webhook)
    (start : String) (msgs : List GMsg) (newHid : String)
    (hstart : start = st.currentHistoryId.getD w.historyId)
    (hfetch : fh start = (msgs, newHid)) :
    (processWebhook fh saveOk userId st w).2 =
      SyncEvent.fetchedDelta start ::
        ((saveMessagesLoop userId saveOk st.sync.db msgs).2 ++
         [SyncEvent.advancedAccountCursor newHid,
          SyncEvent.advancedWorkflowCursor newHid]) ∧
    (processWebhook fh saveOk userId st w).2.getLast? =
      some (SyncEvent.advancedWorkflowCursor newHid) ∧
    (∀ ev ∈ (saveMessagesLoop userId saveOk st.sync.db msgs).2, ev.isMsgEvent = true) ∧
    (∀ m ∈ msgs,
      SyncEvent.savedMessage m.id ∈ (saveMessagesLoop userId saveOk st.sync.db msgs).2 ∨
      SyncEvent.saveFailed m.id ∈ (saveMessagesLoop userId saveOk st.sync.db msgs).2) ∧
    (WfState.mk (fetchGmailChanges fh saveOk userId st.sync start).1
        st.currentHistoryId).currentHistoryId = st.currentHistoryId ∧
    (processWebhook fh saveOk userId
        (WfState.mk (fetchGmailChanges fh saveOk userId st.sync start).1
          st.currentHistoryId) w).1.currentHistoryId =
      (processWebhook fh saveOk userId st w).1.currentHistoryId ∧
    (processWebhook fh saveOk userId
        (WfState.mk (fetchGmailChanges fh saveOk userId st.sync start).1
          st.currentHistoryId) w).1.sync.acct.historyId =
      (processWebhook fh saveOk userId st w).1.sync.acct.historyId := by
  subst hstart
  have hevents := saveMessagesLoop_events userId saveOk st.sync.db msgs
  refine ⟨?_, ?_, hevents.1, hevents.2, rfl, ?_, ?_⟩
  · simp [processWebhook, fetchGmailChanges, hfetch]
  · have hsplit :
        SyncEvent.fetchedDelta (st.currentHistoryId.getD w.historyId) ::
            ((saveMessagesLoop userId saveOk st.sync.db msgs).2 ++
             [SyncEvent.advancedAccountCursor newHid,
              SyncEvent.advancedWorkflowCursor newHid]) =
          (SyncEvent.fetchedDelta (st.currentHistoryId.getD w.historyId) ::
            ((saveMessagesLoop userId saveOk st.sync.db msgs).2 ++
             [SyncEvent.advancedAccountCursor newHid])) ++
          [SyncEvent.advancedWorkflowCursor newHid] := by
      simp
    have htrace : (processWebhook fh saveOk userId st w).2 =
        SyncEvent.fetchedDelta (st.currentHistoryId.getD w.historyId) ::
          ((saveMessagesLoop userId saveOk st.sync.db msgs).2 ++
           [SyncEvent.advancedAccountCursor newHid,
            SyncEvent.advancedWorkflowCursor newHid]) := by
      simp [processWebhook, fetchGmailChanges, hfetch]
    rw [htrace, hsplit, List.getLast?_concat]
  · simp [processWebhook, fetchGmailChanges, hfetch]
  · simp [processWebhook, fetchGmailChanges, hfetch]

/-- Concrete fetched message for the C2 witness. -/
def c2Msg : GMsg :=
  { id := "g1", threadId := "t", fromAddr := "a@b.c", toAddr := "me",
    subject := "s", internalDate := "100", body := "b", snippet := "sn" }

/-- Gateway oracle for the C2 witness: one-message delta, new cursor `h2`. -/
def c2fh : String → List GMsg × String := fun _ => ([c2Msg], "h2")

/-- Save oracle for the C2 witness: saves succeed. -/
def c2saveOk : GMsg → Bool := fun _ => true

/-- Account document for the C2 witness. -/
def c2Acct : GmailAccount :=
  { userId := "u", historyId := some "h1", isActive := true,
    totalEmailsSynced := 0, errorCount := 0, lastError := none,
    watchExpiration := none }

/-- Workflow state for the C2 witness, cursor at `h1`. -/
def c2State : WfState :=
  { sync := { db := [], acct := c2Acct }, currentHistoryId := some "h1" }

/-- Webhook for the C2 witness. -/
def c2Webhook : Webhook := { emailAddress := "a@b.c", historyId := "hw" }

/-- Witness for C2 at the concrete one-message delta: the trace ends with the
workflow cursor advancement, and the crashed-then-replayed run agrees with
the clean run on the final workflow cursor. -/
theorem mywallet_C2_witness :
    (processWebhook c2fh c2saveOk "u" c2State c2Webhook).2.getLast? =
      some (SyncEvent.advancedWorkflowCursor "h2") ∧
    (processWebhook c2fh c2saveOk "u"
        (WfState.mk (fetchGmailChanges c2fh c2saveOk "u" c2State.sync "h1").1
          c2State.currentHistoryId) c2Webhook).1.currentHistoryId =
      (processWebhook c2fh c2saveOk "u" c2State c2Webhook).1.currentHistoryId := by
  have h := mywallet_C2 c2fh c2saveOk "u" c2State c2Webhook "h1" [c2Msg] "h2" rfl rfl
  exact ⟨h.2.1, h.2.2.2.2.2.1⟩

/-- `GMAIL_WATCH_CONFIG` shape (`shared/constants.ts`, concatenated
`email.controller.ts` lines 277-282). -/
structure GmailWatchConfig where
  EXPIRATION_DAYS : Nat
  RENEWAL_BUFFER_DAYS : Nat
  CONTINUE_AS_NEW_DAYS : Nat
deriving DecidableEq

/-- `GMAIL_WATCH_CONFIG`: a 7-day watch expiration (Gmail's maximum), a
5-day renewal constant (source comment: renew 2 days before expiration),
and a 30-day `continueAsNew` horizon. -/
def GMAIL_WATCH_CONFIG : GmailWatchConfig :=
  { EXPIRATION_DAYS := 7, RENEWAL_BUFFER_DAYS := 5, CONTINUE_AS_NEW_DAYS := 30 }

/-- One day in milliseconds. -/
def dayMs : Nat := 24 * 60 * 60 * 1000

/-- `renewalSleepMs` (`gmail-subscription.workflow.ts` line 111): the bound
passed to `condition(...)` each loop iteration —
`RENEWAL_BUFFER_DAYS * 24 * 60 * 60 * 1000`, a fixed constant that does not
mention the account's current watch expiry. -/
def renewalSleepMs : Nat :=
  GMAIL_WATCH_CONFIG.RENEWAL_BUFFER_DAYS * 24 * 60 * 60 * 1000

/-- The renewal deadline as the spec words it (for comparison with the
code's constant): current watch expiry minus the safety buffer. -/
def specRenewalDelayMs (watchExpiryMs safetyBufferMs : Nat) : Nat :=
  watchExpiryMs - safetyBufferMs

/-- Counterexample to C7 as stated: for the claim's scenario — a watch
expiring in 5 days under a 2-day buffer — the spec-side deadline is day 3,
but the code always waits the fixed `renewalSleepMs` of 5 days; the deadline
is not computed from the account's watch expiry at all. -/
theorem mywallet_C7_counterexample :
    renewalSleepMs ≠ specRenewalDelayMs (5 * dayMs) (2 * dayMs) ∧
    renewalSleepMs = 5 * dayMs := by
  constructor <;> decide

/-- Claim C7 (amended): while Active with no notifications and no stop
request the controller suspends for the fixed constant `renewalSleepMs`
= `RENEWAL_BUFFER_DAYS` = 5 days per iteration; this equals the configured
7-day `EXPIRATION_DAYS` minus a 2-day safety buffer, but it is a constant,
not a value derived from the account's current watch expiry. -/
theorem mywallet_C7_amended :
    renewalSleepMs = GMAIL_WATCH_CONFIG.RENEWAL_BUFFER_DAYS * dayMs ∧
    GMAIL_WATCH_CONFIG.RENEWAL_BUFFER_DAYS = 5 ∧
    renewalSleepMs =
      specRenewalDelayMs (GMAIL_WATCH_CONFIG.EXPIRATION_DAYS * dayMs) (2 * dayMs) := by
  refine ⟨?_, rfl, ?_⟩ <;> decide

/-- The subscription workflow's loop state: workflow cursor state, the
`isActive` flag toggled by `stopSyncSignal` (lines 71-74), and the pending
webhook queue. -/
structure LoopState where
  wf : WfState
  isActive : Bool
  queue : List Webhook
deriving DecidableEq

/-- The inner `while (webhookQueue.length > 0)` loop (lines 120-156): every
queued webhook is processed in arrival order; the loop does not re-check
`isActive`. -/
def drainWebhooks (fh : String → List GMsg × String) (saveOk : GMsg → Bool)
    (userId : String) : WfState → List Webhook → WfState × List SyncEvent
  | st, [] => (st, [])
  | st, w :: ws =>
    let r := processWebhook fh saveOk userId st w
    let rest := drainWebhooks fh saveOk userId r.1 ws
    (rest.1, r.2 ++ rest.2)

/-- The workflow's result status (`GmailSubscriptionResult.status`). -/
inductive WorkflowStatus where
  | stopped
  | errored
deriving DecidableEq

/-- `deactivateGmailAccount` (`part_008` lines 270-293): mark the account
inactive and clear the watch expiration. -/
def deactivateAccount (st : SyncState) : SyncState :=
  { st with acct := { st.acct with isActive := false, watchExpiration := none } }

/-- One pass of the main loop body after the `condition(...)` wake
(`gmail-subscription.workflow.ts` lines 119-202): drain the whole webhook
queue; then, if `isActive` still holds, refresh the token and renew the watch
(lines 159-180; `rw` is the renewal oracle returning the new historyId and
expiration) and loop again (`none` status); otherwise fall out of the loop,
deactivate the account (lines 193-195) and return status `stopped` (lines
197-202). -/
def runFromWake (fh : String → List GMsg × String) (saveOk : GMsg → Bool)
    (userId : String) (rw : Unit → String × String) (st : LoopState) :
    LoopState × Option WorkflowStatus × List SyncEvent :=
  let drained := drainWebhooks fh saveOk userId st.wf st.queue
  if st.isActive then
    ({ wf :=
        { sync :=
            { drained.1.sync with
              acct := { drained.1.sync.acct with
                historyId := some (rw ()).1,
                watchExpiration := some (rw ()).2 } },
          currentHistoryId := some (rw ()).1 },
       isActive := true, queue := [] },
     none, drained.2 ++ [SyncEvent.renewedWatch])
  else
    ({ wf := { drained.1 with sync := deactivateAccount drained.1.sync },
       isActive := false, queue := [] },
     some WorkflowStatus.stopped, drained.2 ++ [SyncEvent.deactivatedAccount])

lemma processWebhook_trace_events (fh : String → List GMsg × String)
    (saveOk : GMsg → Bool) (userId : String) (st : WfState) (w : Webhook) :
    ∀ ev ∈ (processWebhook fh saveOk userId st w).2,
      ev.isRenewal = false ∧ ev ≠ SyncEvent.deactivatedAccount := by
  intro ev hev
  simp only [processWebhook, fetchGmailChanges] at hev
  rcases List.mem_append.1 hev with hev | hev
  · rcases List.mem_cons.1 hev with hev | hev
    · subst hev; exact ⟨rfl, by simp⟩
    · rcases List.mem_append.1 hev with hev | hev
      · have := (saveMessagesLoop_events userId saveOk st.sync.db _).1 ev hev
        cases ev <;> simp_all [SyncEvent.isMsgEvent, SyncEvent.isRenewal]
      · simp at hev
        subst hev
        exact ⟨rfl, by simp⟩
  · simp at hev
    subst hev
    exact ⟨rfl, by simp⟩

lemma processWebhook_fetch_count (fh : String → List GMsg × String)
    (saveOk : GMsg → Bool) (userId : String) (st : WfState) (w : Webhook) :
    (processWebhook fh saveOk userId st w).2.countP SyncEvent.isFetchedDelta = 1 := by
  simp only [processWebhook, fetchGmailChanges]
  rw [List.countP_append, List.countP_cons, List.countP_append]
  have hmsg : (saveMessagesLoop userId saveOk st.sync.db
      (fh (st.currentHistoryId.getD w.historyId)).1).2.countP SyncEvent.isFetchedDelta = 0 := by
    rw [List.countP_eq_zero]
    intro ev hev
    have := (saveMessagesLoop_events userId saveOk st.sync.db _).1 ev hev
    cases ev <;> simp_all [SyncEvent.isMsgEvent, SyncEvent.isFetchedDelta]
  rw [hmsg]
  rfl

lemma drainWebhooks_counts (fh : String → List GMsg × String)
    (saveOk : GMsg → Bool) (userId : String) (st : WfState) (ws : List Webhook) :
    (drainWebhooks fh saveOk userId st ws).2.countP SyncEvent.isFetchedDelta = ws.length ∧
    (drainWebhooks fh saveOk userId st ws).2.countP SyncEvent.isRenewal = 0 := by
  induction ws generalizing st with
  | nil => simp [drainWebhooks]
  | cons w ws ih =>
    have hloop : drainWebhooks fh saveOk userId st (w :: ws) =
        ((drainWebhooks fh saveOk userId (processWebhook fh saveOk userId st w).1 ws).1,
         (processWebhook fh saveOk userId st w).2 ++
           (drainWebhooks fh saveOk userId (processWebhook fh saveOk userId st w).1 ws).2) := by
      rw [drainWebhooks]
    rw [hloop]
    have hih := ih (processWebhook fh saveOk userId st w).1
    constructor
    · rw [List.countP_append, hih.1, processWebhook_fetch_count]
      simp [Nat.add_comm]
    · rw [List.countP_append, hih.2]
      have : (processWebhook fh saveOk userId st w).2.countP SyncEvent.isRenewal = 0 := by
        rw [List.countP_eq_zero]
        intro ev hev
        have := (processWebhook_trace_events fh saveOk userId st w ev hev).1
        simp [this]
      rw [this]

/-- Claim C8 (amended): once the stop signal has been observed
(`isActive = false`), the remainder of the loop pass processes every
already-queued notification to completion — fetching one delta per queued
webhook, so deltas for queued notifications are still fetched after the stop
— performs no watch renewal, deactivates the account as its final effect and
terminates with status `stopped`. -/
theorem mywallet_C8_amended (fh : String → List GMsg × String)
    (saveOk : GMsg → Bool) (userId : String) (rw : Unit → String × String)
    (st : LoopState) (hstop : st.isActive = false) :
    (runFromWake fh saveOk userId rw st).2.1 = some WorkflowStatus.stopped ∧
    (runFromWake fh saveOk userId rw st).1.wf.sync.acct.isActive = false ∧
    (runFromWake fh saveOk userId rw st).2.2 =
      (drainWebhooks fh saveOk userId st.wf st.queue).2 ++
        [SyncEvent.deactivatedAccount] ∧
    (runFromWake fh saveOk userId rw st).2.2.countP SyncEvent.isRenewal = 0 ∧
    (runFromWake fh saveOk userId rw st).2.2.countP SyncEvent.isFetchedDelta =
      st.queue.length ∧
    (runFromWake fh saveOk userId rw st).2.2.getLast? =
      some SyncEvent.deactivatedAccount := by
  have hrun : runFromWake fh saveOk userId rw st =
      ({ wf := { (drainWebhooks fh saveOk userId st.wf st.queue).1 with
            sync := deactivateAccount (drainWebhooks fh saveOk userId st.wf st.queue).1.sync },
         isActive := false, queue := [] },
       some WorkflowStatus.stopped,
       (drainWebhooks fh saveOk userId st.wf st.queue).2 ++
         [SyncEvent.deactivatedAccount]) := by
    rw [runFromWake, if_neg (by rw [hstop]; exact Bool.false_ne_true)]
  have hcounts := drainWebhooks_counts fh saveOk userId st.wf st.queue
  rw [hrun]
  refine ⟨rfl, rfl, rfl, ?_, ?_, ?_⟩
  · rw [List.countP_append, hcounts.2]
    rfl
  · rw [List.countP_append, hcounts.1]
    rfl
  · rw [List.getLast?_concat]

/-- Webhook queued but not yet processed when the stop arrives (C8). -/
def c8Webhook : Webhook := { emailAddress := "a@b.c", historyId := "hq" }

/-- Account document for the C8 theorems. -/
def c8Acct : GmailAccount :=
  { userId := "u", historyId := some "h5", isActive := true,
    totalEmailsSynced := 1, errorCount := 0, lastError := none,
    watchExpiration := none }

/-- Loop state just after the stop signal was observed while an earlier
delta was mid-processing: that delta's effects are already in the state, the
stop flag is down, and one more webhook is still queued. -/
def c8State : LoopState :=
  { wf := { sync := { db := [], acct := c8Acct }, currentHistoryId := some "h5" },
    isActive := false, queue := [c8Webhook] }

/-- Gateway oracle for the C8 theorems. -/
def c8fh : String → List GMsg × String := fun _ => ([], "h6")

/-- Save oracle for the C8 theorems. -/
def c8saveOk : GMsg → Bool := fun _ => true

/-- Renewal oracle for the C8 theorems (never used after a stop). -/
def c8rw : Unit → String × String := fun _ => ("h7", "exp")

/-- Counterexample to C8 as stated: with the stop already observed and one
webhook still queued, the remainder of the run fetches one more delta — so
it is false that no further deltas are fetched after the stop is observed. -/
theorem mywallet_C8_counterexample :
    c8State.isActive = false ∧
    c8State.queue ≠ [] ∧
    (runFromWake c8fh c8saveOk "u" c8rw c8State).2.2.countP
      SyncEvent.isFetchedDelta = 1 := by
  refine ⟨rfl, by simp [c8State], rfl⟩

/-- Witness for the amended C8 at the concrete stopped state with one queued
webhook. -/
theorem mywallet_C8_witness :
    (runFromWake c8fh c8saveOk "u" c8rw c8State).2.1 = some WorkflowStatus.stopped ∧
    (runFromWake c8fh c8saveOk "u" c8rw c8State).1.wf.sync.acct.isActive = false ∧
    (runFromWake c8fh c8saveOk "u" c8rw c8State).2.2.countP SyncEvent.isRenewal = 0 ∧
    (runFromWake c8fh c8saveOk "u" c8rw c8State).2.2.countP SyncEvent.isFetchedDelta = 1 ∧
    (runFromWake c8fh c8saveOk "u" c8rw c8State).2.2.getLast? =
      some SyncEvent.deactivatedAccount := by
  have h := mywallet_C8_amended c8fh c8saveOk "u" c8rw c8State rfl
  exact ⟨h.1, h.2.1, h.2.2.2.1, (h.2.2.2.2.1).trans rfl, h.2.2.2.2.2⟩

/-- `matchEmailPattern` — the pattern-matching activity the processing
workflows actually call (concatenated `email.controller.ts` lines 368-413).
It walks the active patterns in descending-priority order and returns the
projection of the first pattern whose from-address list matches the sender
(case-insensitive substring), whose subject-regex list has at least one hit
(`rt` is the regex-test oracle standing for
`new RegExp(regex, "i").test(subject)`, with invalid regexes counting as
non-matches), and whose body-keyword list — only when non-empty — has at
least one hit.  An empty `subjectPatterns` list makes `some` vacuously false,
so such a rule can never be returned; an empty `bodyKeywords` list skips the
body check entirely. -/
def matchEmailPattern (rt : String → String → Bool)
    (emailFrom emailSubject emailBody : String) :
    List EmailPattern → Option MatchedPattern
  | [] => none
  | p :: ps =>
    if p.fromAddresses.any (fun a => containsCI emailFrom a) then
      if p.subjectPatterns.any (fun r => rt r emailSubject) then
        if p.bodyKeywords.length > 0 then
          if p.bodyKeywords.any (fun kw => containsCI emailBody kw) then
            some (toMatchedPattern p)
          else matchEmailPattern rt emailFrom emailSubject emailBody ps
        else some (toMatchedPattern p)
      else matchEmailPattern rt emailFrom emailSubject emailBody ps
    else matchEmailPattern rt emailFrom emailSubject emailBody ps

lemma matchEmailPattern_some (rt : String → String → Bool) (f s b : String)
    (ps : List EmailPattern) (m : MatchedPattern)
    (h : matchEmailPattern rt f s b ps = some m) :
    ∃ p, p ∈ ps ∧ toMatchedPattern p = m ∧
      p.subjectPatterns.any (fun r => rt r s) = true ∧
      p.subjectPatterns ≠ [] := by
  induction ps with
  | nil => simp [matchEmailPattern] at h
  | cons p rest ih =>
    rw [matchEmailPattern] at h
    by_cases hfrom : p.fromAddresses.any (fun a => containsCI f a) = true
    · rw [if_pos hfrom] at h
      by_cases hsub : p.subjectPatterns.any (fun r => rt r s) = true
      · rw [if_pos hsub] at h
        have hnonempty : p.subjectPatterns ≠ [] := by
          intro heq
          rw [heq] at hsub
          simp at hsub
        by_cases hlen : p.bodyKeywords.length > 0
        · rw [if_pos hlen] at h
          by_cases hbody : p.bodyKeywords.any (fun kw => containsCI b kw) = true
          · rw [if_pos hbody] at h
            exact ⟨p, List.mem_cons_self _ _, Option.some.inj h, hsub, hnonempty⟩
          · rw [if_neg hbody] at h
            obtain ⟨q, hq1, hq2⟩ := ih h
            exact ⟨q, List.mem_cons_of_mem _ hq1, hq2⟩
        · rw [if_neg hlen] at h
          exact ⟨p, List.mem_cons_self _ _, Option.some.inj h, hsub, hnonempty⟩
      · rw [if_neg hsub] at h
        obtain ⟨q, hq1, hq2⟩ := ih h
        exact ⟨q, List.mem_cons_of_mem _ hq1, hq2⟩
    · rw [if_neg hfrom] at h
      obtain ⟨q, hq1, hq2⟩ := ih h
      exact ⟨q, List.mem_cons_of_mem _ hq1, hq2⟩

/-- Claim C10: `matchEmailPattern` returns a rule only if at least one of the
rule's subject regex patterns matches the subject; hence an active rule with
an empty `subjectPatterns` list is never selected, even with matching
from-addresses, while an empty `bodyKeywords` list imposes no constraint —
a rule with matching sender, a subject hit and no body keywords is returned
outright. -/
theorem mywallet_C10 (rt : String → String → Bool) (f s b : String)
    (ps : List EmailPattern) :
    (∀ m, matchEmailPattern rt f s b ps = some m →
      ∃ p, p ∈ ps ∧ toMatchedPattern p = m ∧
        p.subjectPatterns.any (fun r => rt r s) = true ∧
        p.subjectPatterns ≠ []) ∧
    (∀ p rest, p.fromAddresses.any (fun a => containsCI f a) = true →
      p.subjectPatterns.any (fun r => rt r s) = true →
      p.bodyKeywords = [] →
      matchEmailPattern rt f s b (p :: rest) = some (toMatchedPattern p)) := by
  constructor
  · intro m hm
    exact matchEmailPattern_some rt f s b ps m hm
  · intro p rest hfrom hsub hbody
    have hlen : ¬ (p.bodyKeywords.length > 0) := by
      rw [hbody]
      simp
    rw [matchEmailPattern, if_pos hfrom, if_pos hsub, if_neg hlen]

/-- Regex-test oracle for the C10 witness: case-insensitive substring
matching (a sound stand-in for an arbitrary regex engine — the theorem holds
for every oracle). -/
def c10rt : String → String → Bool := fun pat subj => containsCI subj pat

/-- A rule with a subject pattern and no body keywords (C10 witness). -/
def c10Pat : EmailPattern :=
  { id := "pX", name := "X", bankName := "B", fromAddresses := ["b.c"],
    subjectPatterns := ["compra"], bodyKeywords := [], extractionPrompt := "e",
    isActive := true, priority := 0 }

/-- An active rule with matching from-addresses but an empty
`subjectPatterns` list (C10 witness). -/
def c10PatEmptySubject : EmailPattern :=
  { id := "pY", name := "Y", bankName := "B", fromAddresses := ["b.c"],
    subjectPatterns := [], bodyKeywords := [], extractionPrompt := "e",
    isActive := true, priority := 0 }

/-- Witness for C10: the no-body-keyword rule is selected on a subject hit,
while the rule with an empty subject-pattern list is never selected even
though its from-address matches. -/
theorem mywallet_C10_witness :
    matchEmailPattern c10rt "a@b.c" "compra hoy" "" [c10Pat] =
      some (toMatchedPattern c10Pat) ∧
    c10Pat.bodyKeywords = [] ∧
    matchEmailPattern c10rt "a@b.c" "compra hoy" "" [c10PatEmptySubject] = none := by
  have h := mywallet_C10 c10rt "a@b.c" "compra hoy" "" [c10Pat]
  exact ⟨h.2 c10Pat [] (by decide) (by decide) rfl, rfl, by decide⟩
